import Mathlib

/-!
Shallow embedding of the tembo repository's Python pgmq client
(`src/extensions/pgmq/coredb-pgmq-python/src/coredb_pgmq_python/queue.py`)
and of the RAG helper (`src/tembo-py/tembo_py/rag.py`), together with
theorems settling the specification claims about them.

Conventions of the embedding:
- SQL values and result columns are modelled by the inductive `Val`;
  a result row is a `List Val` (positional, like a psycopg row tuple).
- A database backend is a function from an issued SQL call to the list
  of rows it returns; the client is a pass-through shim over it.
- Python exceptions become constructors of `PyError`; a fallible
  operation returns `Except PyError _`.
- Connection-pool usage is made observable as a trace of `Event`s:
  each client method acquires a pooled connection (the `with
  self.pool.connection()` block), executes its statement, and releases
  the connection, also when an exception is raised inside the block.
-/

namespace Tembo

/-- A JSON-like message payload (the Python `dict` payloads are opaque
key/value documents in this client). -/
abbrev Payload := List (String × String)

/-- SQL parameter / result-column values exchanged with the backend. -/
inductive Val where
  | vstr (s : String)
  | vint (n : Int)
  | vtime (t : Int)
  | vjson (j : Payload)
  | vnone
deriving DecidableEq, Repr

/-- Python exceptions raised (or named by the spec) around the clients. -/
inductive PyError where
  | notImplementedError (msg : String)
  | notSupportedError
  | indexError
  | zeroDivisionError
  | valueError (msg : String)
deriving DecidableEq, Repr

/-- One parameterized SQL statement issued to the backing store. -/
structure SqlCall where
  stmt : String
  params : List Val
deriving DecidableEq, Repr

/-- A backend: maps an issued SQL call to the rows it returns. -/
abbrev Backend := SqlCall → List (List Val)

/-- Observable connection-pool events of one client method call. -/
inductive Event where
  | acquire
  | exec (c : SqlCall)
  | release
deriving DecidableEq, Repr

/-- The `Message` dataclass of `queue.py`: fields are dynamically typed
in Python, so each field holds a `Val`. -/
structure Message where
  msg_id : Val
  read_ct : Val
  enqueued_at : Val
  vt : Val
  message : Val
deriving DecidableEq, Repr

/-- The `PGMQueue` dataclass fields with their Python defaults
(`pool` is derived, see `PGMQueue.mkPool`). -/
structure PGMQueue where
  host : String := "localhost"
  port : String := "5432"
  database : String := "postgres"
  delay : Int := 0
  vt : Int := 30
  partition_size : Int := 5000
  username : String := "postgres"
  password : String := "postgres"
  pool_size : Int := 10
  kwargs : List (String × Val) := []
deriving DecidableEq, Repr

/-- The connection pool as constructed in `__post_init__`: psycopg's
`ConnectionPool(conninfo, **self.kwargs)` receives the conninfo string
and the user-supplied keyword arguments, nothing else. -/
structure Pool where
  conninfo : String
  args : List (String × Val)
deriving DecidableEq, Repr

/-- `__post_init__`: builds the conninfo string and the pool. -/
def PGMQueue.mkPool (q : PGMQueue) : Pool :=
  { conninfo := "host=" ++ q.host ++ " port=" ++ q.port ++ " dbname=" ++ q.database
      ++ " user=" ++ q.username ++ " password=" ++ q.password
  , args := q.kwargs }

/-- A `PGMQueue()` built with every default field value. -/
def defaultQueue : PGMQueue := {}

/-- `create_queue`: `select pgmq_create(%s);` on a pooled connection. -/
def PGMQueue.create_queue (_q : PGMQueue) (b : Backend) (queue : String) :
    List Event × Except PyError Unit :=
  let c : SqlCall := ⟨"select pgmq_create(%s);", [.vstr queue]⟩
  let _ := b c
  ([.acquire, .exec c, .release], .ok ())

/-- `create_partitioned_queue`: `select pgmq_create_partitioned(%s, %s);`. -/
def PGMQueue.create_partitioned_queue (_q : PGMQueue) (b : Backend) (queue : String)
    (partition_size : Option Int) : List Event × Except PyError Unit :=
  let c : SqlCall := ⟨"select pgmq_create_partitioned(%s, %s);",
    [.vstr queue, match partition_size with | some n => .vint n | none => .vnone]⟩
  let _ := b c
  ([.acquire, .exec c, .release], .ok ())

/-- The enqueue statement issued by `send`. -/
def sendCall (queue : String) (message : Payload) : SqlCall :=
  ⟨"select * from pgmq_send(%s, %s);", [.vstr queue, .vjson message]⟩

/-- `send`: acquires a connection; if `delay is not None` it raises
`NotImplementedError` inside the `with` block (the connection is still
released), otherwise it executes `pgmq_send` and returns the fetched
rows. -/
def PGMQueue.send (_q : PGMQueue) (b : Backend) (queue : String) (message : Payload)
    (delay : Option Int) : List Event × Except PyError (List (List Val)) :=
  match delay with
  | some _ =>
      ([.acquire, .release],
       .error (.notImplementedError "send_delay is not implemented in pgmq"))
  | none =>
      let c := sendCall queue message
      ([.acquire, .exec c, .release], .ok (b c))

/-- `vt or self.vt`: Python `or` on an `Optional[int]` treats both
`None` and `0` as falsy and falls back to the instance default. -/
def vtOrDefault (q : PGMQueue) (vt : Option Int) : Int :=
  match vt with
  | none => q.vt
  | some v => if v = 0 then q.vt else v

/-- The read statement issued by `read`. -/
def readCall (q : PGMQueue) (queue : String) (vt : Option Int) (limit : Int) : SqlCall :=
  ⟨"select * from pgmq_read(%s, %s, %s);",
   [.vstr queue, .vint (vtOrDefault q vt), .vint limit]⟩

/-- `Message(msg_id=x[0], read_ct=x[1], enqueued_at=x[2], vt=x[3],
message=x[4])`: positional subscripts into the result row; a row with
fewer than five columns would raise `IndexError`. -/
def messageOfRow (x : List Val) : Option Message :=
  match x.get? 0, x.get? 1, x.get? 2, x.get? 3, x.get? 4 with
  | some a, some b, some c, some d, some e =>
      some { msg_id := a, read_ct := b, enqueued_at := c, vt := d, message := e }
  | _, _, _, _, _ => none

/-- The two shapes `read` can return: `Union[Message, list[Message]]`. -/
inductive ReadResult where
  | single (m : Message)
  | list (ms : List Message)
deriving DecidableEq, Repr

/-- `messages[0] if len(messages) == 1 else messages`. -/
def shapeResult (messages : List Message) : ReadResult :=
  match messages with
  | [m] => .single m
  | ms => .list ms

/-- Whether a read outcome has the singular `Message` shape. -/
def isSingle : Except PyError ReadResult → Bool
  | .ok (.single _) => true
  | _ => false

/-- `read`: executes `pgmq_read` on a pooled connection, then maps each
returned row positionally onto a `Message` and picks the return shape
from the number of mapped messages. -/
def PGMQueue.read (q : PGMQueue) (b : Backend) (queue : String) (vt : Option Int)
    (limit : Int) : List Event × Except PyError ReadResult :=
  let c := readCall q queue vt limit
  let rows := b c
  match rows.mapM messageOfRow with
  | none => ([.acquire, .exec c, .release], .error .indexError)
  | some messages => ([.acquire, .exec c, .release], .ok (shapeResult messages))

/-- Modelled from the spec: the client's `archive(queue, msgId)` method
is absent from the `queue.py` under `src/` (only its caller
`benches/bench.py` is present); per the spec it issues the single
parameterized statement `pgmq_archive(name, id)` on a pooled
connection. -/
def PGMQueue.archive (_q : PGMQueue) (b : Backend) (queue : String) (msgId : Int) :
    List Event × Except PyError (List (List Val)) :=
  let c : SqlCall := ⟨"select pgmq_archive(%s, %s);", [.vstr queue, .vint msgId]⟩
  ([.acquire, .exec c, .release], .ok (b c))

/-- Modelled from the spec: the client's `delete(queue, msgId)` method
is absent from the `queue.py` under `src/` (only its caller
`benches/bench.py` is present); per the spec it issues the single
parameterized statement `pgmq_delete(name, id)` on a pooled
connection. -/
def PGMQueue.delete (_q : PGMQueue) (b : Backend) (queue : String) (msgId : Int) :
    List Event × Except PyError (List (List Val)) :=
  let c : SqlCall := ⟨"select pgmq_delete(%s, %s);", [.vstr queue, .vint msgId]⟩
  ([.acquire, .exec c, .release], .ok (b c))

/-- A backend that always returns no rows. -/
def bEmpty : Backend := fun _ => []

/-- A backend that always returns exactly one five-column row. -/
def bOne : Backend := fun _ => [[.vint 1, .vint 0, .vtime 0, .vtime 7, .vjson []]]

/-- A call trace is well-scoped: it starts by acquiring a pooled
connection and ends by releasing it. -/
def scopedTrace (tr : List Event) : Prop :=
  tr.head? = some .acquire ∧ tr.getLast? = some .release

instance (tr : List Event) : Decidable (scopedTrace tr) := by
  unfold scopedTrace; infer_instance

/-!
Server-side queue semantics. The spec states that the visibility
timeout / delivery contract is enforced entirely by the database
extension, whose code is not under `src/`; the model below follows the
spec's data model and invariants (sections 3 and 8). Time is a logical
clock (`Nat`); a message is visible when its `vt` expiry is not in the
future.
-/

/-- A stored queue message: server-assigned increasing `msg_id`,
delivery count `read_ct`, enqueue time, visibility-timeout expiry
`vt`, and the opaque payload. -/
structure QMessage where
  msg_id : Nat
  read_ct : Nat
  enqueued_at : Nat
  vt : Nat
  payload : Payload
deriving DecidableEq, Repr

/-- Server-side state of one queue: next id to assign, live messages
(in `msg_id` order), and the archived history. -/
structure QueueState where
  nextId : Nat
  live : List QMessage
  history : List QMessage
deriving DecidableEq, Repr

/-- A message is visible at time `now` when its visibility-timeout
expiry has passed. -/
def visible (now : Nat) (m : QMessage) : Bool :=
  m.vt ≤ now

/-- The ids of a list of stored messages. -/
def msgIds (l : List QMessage) : List Nat :=
  l.map (·.msg_id)

/-- Modelled from the spec: server-side `pgmq_send(name, payload)` —
appends a fresh message with the next id, `read_ct = 0`, enqueued now
and immediately visible (`delaySeconds` is unimplemented); returns the
assigned id. -/
def specSend (s : QueueState) (now : Nat) (p : Payload) : Nat × QueueState :=
  (s.nextId,
   { s with
     nextId := s.nextId + 1
     live := s.live ++ [⟨s.nextId, 0, now, now, p⟩] })

/-- The in-place update applied to each message delivered by a read:
its delivery count increments and it is hidden until `now + T`. -/
def lockMsg (ids : List Nat) (now T : Nat) (m : QMessage) : QMessage :=
  if m.msg_id ∈ ids then { m with read_ct := m.read_ct + 1, vt := now + T }
  else m

/-- Modelled from the spec: server-side `pgmq_read(name, vt, limit)` —
atomically selects up to `limit` currently visible messages in id
order, returns them (with their delivery counts as of before this
read, matching the spec's scenario where the first read reports
`read_ct == 0`), and marks each selected message invisible until
`now + T` with its `read_ct` incremented. -/
def specRead (s : QueueState) (now T limit : Nat) :
    List QMessage × QueueState :=
  let selected := (s.live.filter (visible now)).take limit
  let ids := msgIds selected
  (selected, { s with live := s.live.map (lockMsg ids now T) })

/-- Modelled from the spec: server-side `pgmq_delete(name, id)` —
permanently removes the message from the live queue. -/
def specDelete (s : QueueState) (id : Nat) : QueueState :=
  { s with live := s.live.filter (fun m => m.msg_id ≠ id) }

/-- Modelled from the spec: server-side `pgmq_archive(name, id)` —
removes the message from the live queue and retains it in the
archived history. -/
def specArchive (s : QueueState) (id : Nat) : QueueState :=
  { s with
    live := s.live.filter (fun m => m.msg_id ≠ id)
    history := s.history ++ s.live.filter (fun m => m.msg_id = id) }

/-- The empty queue state. -/
def emptyQueue : QueueState := ⟨0, [], []⟩

/-!
Embedding of the RAG helper (`src/tembo-py/tembo_py/rag.py`).
-/

/-- A prepared document chunk row `(document_name, chunk_id, meta,
content)`. -/
abbrev Doc := String × String × String × String

/-- SQL bind parameters of the RAG query (heterogeneous tuple slots). -/
inductive Param where
  | pstr (s : String)
  | pint (n : Int)
  | pbool (b : Bool)
  | pnone
deriving DecidableEq, Repr

/-- An `Optional[str]` argument as a bind-parameter slot. -/
def optStrParam : Option String → Param
  | some s => .pstr s
  | none => .pnone

/-- The fields of `TemboRAG` the embedded methods use. -/
structure TemboRAG where
  project_name : String
  connection_string : Option String := none
deriving DecidableEq, Repr

/-- `TemboRAG._prepare_query_params`: starts from the three mandatory
slots, then appends one named clause and one bind parameter per
non-`None` optional argument, testing them in the source's fixed
order `prompt_template` (as `task`), `api_key`, `num_context`,
`force_trim`. -/
def TemboRAG.prepare_query_params (r : TemboRAG) (query : String)
    (chat_model : Option String) (prompt_template : Option String)
    (num_context : Option Int) (force_trim : Option Bool)
    (api_key : Option String) : String × List Param :=
  let q := "SELECT vectorize.rag(agent_name => %s,query => %s,chat_model => %s"
  let bind_params : List Param := [.pstr r.project_name, .pstr query, optStrParam chat_model]
  let (q, bind_params) :=
    match prompt_template with
    | some t => (q ++ ",task => %s", bind_params ++ [Param.pstr t])
    | none => (q, bind_params)
  let (q, bind_params) :=
    match api_key with
    | some k => (q ++ ",api_key => %s", bind_params ++ [Param.pstr k])
    | none => (q, bind_params)
  let (q, bind_params) :=
    match num_context with
    | some n => (q ++ ",num_context => %s", bind_params ++ [Param.pint n])
    | none => (q, bind_params)
  let (q, bind_params) :=
    match force_trim with
    | some b => (q ++ ",force_trim => %s", bind_params ++ [Param.pbool b])
    | none => (q, bind_params)
  (q ++ ");", bind_params)

/-- Python `%` on integers: raises `ZeroDivisionError` on a zero
modulus. -/
def pymod (a b : Nat) : Except PyError Nat :=
  if b = 0 then .error .zeroDivisionError else .ok (a % b)

/-- The `for i, row in enumerate(documents)` loop of `_load_docs`:
each iteration first evaluates `i % deca` (for the progress log) and
then writes the row; returns the rows written so far together with the
exception, if one was raised. -/
def loadLoop (deca : Nat) : Nat → List Doc → List Doc × Option PyError
  | _, [] => ([], none)
  | i, row :: rest =>
    match pymod i deca with
    | .error e => ([], some e)
    | .ok _ =>
      let (written, err) := loadLoop deca (i + 1) rest
      (row :: written, err)

/-- `TemboRAG._load_docs`: computes the progress-logging interval
`deca = len(documents) // 10` and streams the rows through the COPY
loop. -/
def loadDocs (documents : List Doc) : List Doc × Option PyError :=
  loadLoop (documents.length / 10) 0 documents

/-- Python string truthiness of an `Optional[str]`: `None` and the
empty string are falsy. -/
def truthy : Option String → Bool
  | none => false
  | some s => !(s == "")

/-- Python `a or b` on `Optional[str]` values: the first operand when
truthy, otherwise the second. -/
def strOr (a b : Option String) : Option String :=
  if truthy a then a else b

/-- `TemboRAG.load_documents`: resolves the connection string (raising
`ValueError` when neither argument nor field is truthy), then inits
the table and delegates the rows to `_load_docs`. -/
def TemboRAG.load_documents (r : TemboRAG) (documents : List Doc)
    (connection_string : Option String) : List Doc × Option PyError :=
  let cs := strOr connection_string r.connection_string
  if truthy cs then loadDocs documents
  else ([], some (.valueError "No connection string provided"))

/-!
Theorems settling the claims.
-/

/-- C1 counterexample: the singular-vs-list return shape is not
decided by `limit == 1`. With `limit = 2` and exactly one available
message the call returns a bare `Message`; with `limit = 1` and no
available message it returns a (empty) list. -/
theorem read_shape_not_by_limit :
    isSingle (defaultQueue.read bOne "q" none 2).2 = true ∧ (2 : Int) ≠ 1 ∧
    isSingle (defaultQueue.read bEmpty "q" none 1).2 = false := by
  refine ⟨rfl, by decide, rfl⟩

/-- C1 (amended): when the backend returns no rows, `read` returns the
empty list (no exception); and the singular `Message` shape is chosen
exactly when the mapped message list has length one, irrespective of
`limit`. -/
theorem read_empty_and_shape (q : PGMQueue) (b : Backend) (queue : String)
    (vt : Option Int) (limit : Int) (messages : List Message)
    (h : (b (readCall q queue vt limit)).mapM messageOfRow = some messages) :
    (b (readCall q queue vt limit) = [] →
      (q.read b queue vt limit).2 = .ok (.list [])) ∧
    isSingle (q.read b queue vt limit).2 = (messages.length == 1) := by
  constructor
  · intro hrows
    simp only [PGMQueue.read, hrows]
    rfl
  · simp only [PGMQueue.read, h]
    match messages with
    | [] => rfl
    | [m] => rfl
    | m1 :: m2 :: ms => simp [isSingle, shapeResult, List.length]

/-- C1 witness: instantiated at the backend that returns no rows. -/
theorem read_empty_and_shape_witness :
    (defaultQueue.read bEmpty "q" none 1).2 = .ok (.list []) :=
  (read_empty_and_shape defaultQueue bEmpty "q" none 1 [] rfl).1 rfl

/-- C2 counterexample: `send` with a delay raises
`NotImplementedError`, which is not the `NotSupportedError` the claim
names. -/
theorem send_delay_not_notSupported :
    (defaultQueue.send bEmpty "test" [] (some 5)).2 =
      .error (.notImplementedError "send_delay is not implemented in pgmq") ∧
    (Except.error (PyError.notImplementedError "send_delay is not implemented in pgmq") :
        Except PyError (List (List Val))) ≠ .error .notSupportedError := by
  refine ⟨rfl, fun hc => ?_⟩
  exact PyError.noConfusion (Except.error.inj hc)

/-- C2 (amended): for every queue name, payload and delay value,
`send` with a delay argument fails fast by raising
`NotImplementedError` (never silently ignoring the parameter, no
statement is executed), while `send` without a delay executes the
`pgmq_send` enqueue statement and returns its rows. -/
theorem send_delay_fails_fast (q : PGMQueue) (b : Backend) (queue : String)
    (message : Payload) (d : Int) :
    (q.send b queue message (some d)).2 =
      .error (.notImplementedError "send_delay is not implemented in pgmq") ∧
    ((q.send b queue message (some d)).1.filter
        (fun e => match e with | .exec _ => true | _ => false)) = [] ∧
    (q.send b queue message none).2 = .ok (b (sendCall queue message)) ∧
    (q.send b queue message none).1 =
      [.acquire, .exec (sendCall queue message), .release] ∧
    (sendCall queue message).stmt = "select * from pgmq_send(%s, %s);" ∧
    (sendCall queue message).params = [.vstr queue, .vjson message] := by
  exact ⟨rfl, rfl, rfl, rfl, rfl, rfl⟩

/-- C3: `archive(queue, msgId)` and `delete(queue, msgId)` each issue a
single parameterized statement (`pgmq_archive` / `pgmq_delete`); on
the modelled server, archive moves the message out of the live queue
into the retained history while delete removes it without retaining
it. -/
theorem archive_delete_single_statement (q : PGMQueue) (b : Backend)
    (queue : String) (msgId : Int) (s : QueueState) (id : Nat) :
    (q.archive b queue msgId).1 =
      [.acquire, .exec ⟨"select pgmq_archive(%s, %s);", [.vstr queue, .vint msgId]⟩,
       .release] ∧
    (q.delete b queue msgId).1 =
      [.acquire, .exec ⟨"select pgmq_delete(%s, %s);", [.vstr queue, .vint msgId]⟩,
       .release] ∧
    (specArchive s id).live.filter (fun m => m.msg_id = id) = [] ∧
    (specArchive s id).history =
      s.history ++ s.live.filter (fun m => m.msg_id = id) ∧
    (specDelete s id).live.filter (fun m => m.msg_id = id) = [] ∧
    (specDelete s id).history = s.history := by
  refine ⟨rfl, rfl, ?_, rfl, ?_, rfl⟩
  · simp [specArchive, List.filter_filter]
  · simp [specDelete, List.filter_filter]

/-- C4: every row returned by the read statement is mapped
positionally, columns `(msg_id, read_ct, enqueued_at, vt, message)`
in that order, onto the fields of `Message`; a backend returning one
such row makes `read` deliver exactly that `Message`. -/
theorem read_row_mapped_positionally (a b c d e : Val) (rest : List Val)
    (q : PGMQueue) (queue : String) (vt : Option Int) (limit : Int) :
    messageOfRow (a :: b :: c :: d :: e :: rest) =
      some { msg_id := a, read_ct := b, enqueued_at := c, vt := d, message := e } ∧
    (q.read (fun _ => [[a, b, c, d, e]]) queue vt limit).2 =
      .ok (.single { msg_id := a, read_ct := b, enqueued_at := c, vt := d, message := e }) := by
  exact ⟨rfl, rfl⟩

/-- Whatever the backend returns, `read` issues exactly one statement
on its pooled connection. -/
theorem read_trace_eq (q : PGMQueue) (b : Backend) (queue : String)
    (vt : Option Int) (limit : Int) :
    (q.read b queue vt limit).1 =
      [.acquire, .exec (readCall q queue vt limit), .release] := by
  simp only [PGMQueue.read]
  cases h : (b (readCall q queue vt limit)).mapM messageOfRow <;> simp [h]

/-- C5: a `read` issued immediately after `send(queue, P)` — i.e. from
the post-send state, at the same instant, with no other message
visible in the queue (the spec's fresh-queue scenario) — returns
exactly one message, whose `message` payload equals `P`, not yet
delivered before (`read_ct = 0`). -/
theorem send_read_round_trip (s : QueueState) (now T : Nat) (P : Payload)
    (h : s.live.filter (visible now) = []) :
    (specRead (specSend s now P).2 now T 1).1 =
      [⟨s.nextId, 0, now, now, P⟩] ∧
    ((specRead (specSend s now P).2 now T 1).1.map (·.payload)) = [P] := by
  have hsel : ((specSend s now P).2.live.filter (visible now)).take 1 =
      [⟨s.nextId, 0, now, now, P⟩] := by
    simp [specSend, List.filter_append, h, visible]
  exact ⟨hsel, by rw [show (specRead (specSend s now P).2 now T 1).1 =
    ((specSend s now P).2.live.filter (visible now)).take 1 from rfl, hsel]; rfl⟩

/-- C5 witness: sending `{"hello": "world"}` to the empty queue and
reading it back at once with `vt = 5` returns that payload. -/
theorem send_read_round_trip_witness :
    (specRead (specSend emptyQueue 0 [("hello", "world")]).2 0 5 1).1.map (·.payload) =
      [[("hello", "world")]] :=
  (send_read_round_trip emptyQueue 0 5 [("hello", "world")] rfl).2

/-- Locking a delivered message never changes its id. -/
theorem lockMsg_msg_id (ids : List Nat) (now T : Nat) (m : QMessage) :
    (lockMsg ids now T m).msg_id = m.msg_id := by
  unfold lockMsg; split <;> rfl

/-- C6: if a read at time `now` with visibility timeout `T` delivers
message `m` (message ids being unique), then (i) no read before
`now + T` returns `m`'s id again; (ii) from `now + T` on, `m` is again
visible in the queue, stored with its delivery count incremented; and
(iii) any later read that does return `m`'s id reports
`read_ct = m.read_ct + 1`. -/
theorem visibility_timeout_contract (s : QueueState) (now T limit : Nat)
    (m : QMessage) (hnd : (msgIds s.live).Nodup)
    (hm : m ∈ (specRead s now T limit).1) :
    (∀ t' T' limit', t' < now + T →
       m.msg_id ∉ msgIds (specRead (specRead s now T limit).2 t' T' limit').1) ∧
    (∀ t'', now + T ≤ t'' →
       ∃ m' ∈ (specRead s now T limit).2.live,
         m'.msg_id = m.msg_id ∧ m'.read_ct = m.read_ct + 1 ∧ visible t'' m' = true) ∧
    (∀ t'' T' limit' m'', now + T ≤ t'' →
       m'' ∈ (specRead (specRead s now T limit).2 t'' T' limit').1 →
       m''.msg_id = m.msg_id → m''.read_ct = m.read_ct + 1) := by
  have hsel : m ∈ (s.live.filter (visible now)).take limit := hm
  have hmem : m ∈ s.live :=
    (List.mem_filter.1 (List.take_subset _ _ hsel)).1
  have hid : m.msg_id ∈ msgIds ((s.live.filter (visible now)).take limit) :=
    List.mem_map_of_mem _ hsel
  have hlive : (specRead s now T limit).2.live =
      s.live.map (lockMsg (msgIds ((s.live.filter (visible now)).take limit)) now T) := rfl
  -- every live entry carrying m's id was locked until now + T
  have hA1 : ∀ x ∈ (specRead s now T limit).2.live,
      x.msg_id = m.msg_id → x.vt = now + T := by
    intro x hx hxid
    rw [hlive] at hx
    obtain ⟨y, hy, hxy⟩ := List.mem_map.1 hx
    by_cases hyid : y.msg_id ∈ msgIds ((s.live.filter (visible now)).take limit)
    · rw [← hxy]; simp [lockMsg, hyid]
    · exfalso
      apply hyid
      have : y.msg_id = x.msg_id := by rw [← hxy, lockMsg_msg_id]
      rw [this, hxid]
      exact hid
  -- with unique ids, the only live entry carrying m's id is locked m
  have hA2 : ∀ x ∈ (specRead s now T limit).2.live,
      x.msg_id = m.msg_id → x.read_ct = m.read_ct + 1 := by
    intro x hx hxid
    rw [hlive] at hx
    obtain ⟨y, hy, hxy⟩ := List.mem_map.1 hx
    by_cases hyid : y.msg_id ∈ msgIds ((s.live.filter (visible now)).take limit)
    · have hyx : y.msg_id = x.msg_id := by rw [← hxy, lockMsg_msg_id]
      have : y = m := List.inj_on_of_nodup_map hnd hy hmem (by rw [hyx, hxid])
      rw [← hxy, this]
      simp [lockMsg, this ▸ hyid]
    · exfalso
      apply hyid
      have : y.msg_id = x.msg_id := by rw [← hxy, lockMsg_msg_id]
      rw [this, hxid]
      exact hid
  refine ⟨?_, ?_, ?_⟩
  · intro t' T' limit' hlt hcontra
    obtain ⟨x, hxsel, hxid⟩ := List.mem_map.1 hcontra
    have hxfil : x ∈ (specRead s now T limit).2.live.filter (visible t') :=
      List.take_subset _ _ hxsel
    have hxlive := (List.mem_filter.1 hxfil).1
    have hxvis : x.vt ≤ t' := by
      have := (List.mem_filter.1 hxfil).2
      simpa [visible] using this
    have := hA1 x hxlive hxid
    omega
  · intro t'' ht''
    refine ⟨lockMsg (msgIds ((s.live.filter (visible now)).take limit)) now T m,
      ?_, ?_, ?_, ?_⟩
    · rw [hlive]; exact List.mem_map_of_mem _ hmem
    · rw [lockMsg_msg_id]
    · simp [lockMsg, hid]
    · simp [visible, lockMsg, hid]; omega
  · intro t'' T' limit' m'' _ hmm hmid
    have hfil : m'' ∈ (specRead s now T limit).2.live.filter (visible t'') :=
      List.take_subset _ _ hmm
    exact hA2 m'' (List.mem_filter.1 hfil).1 hmid

/-- C6 witness: the spec's scenario — send `{"hello": "world"}` at
time 0, read it with `vt = 5` (delivered with `read_ct = 0`); a read
at time 3 returns nothing, while at time 6 the message is visible
again with `read_ct = 1`. -/
theorem visibility_timeout_contract_witness :
    (0 : Nat) ∉ msgIds
      (specRead (specRead (specSend emptyQueue 0 [("hello", "world")]).2 0 5 1).2
        3 5 1).1 :=
  (visibility_timeout_contract (specSend emptyQueue 0 [("hello", "world")]).2 0 5 1
      ⟨0, 0, 0, 0, [("hello", "world")]⟩ (by decide) (by decide)).1 3 5 1 (by decide)

/-- C7 counterexample: the connection pool ignores the `pool_size`
field entirely — two clients that differ only in `pool_size` build
identical pools, so the pool does not have the configured
`pool_size`. -/
theorem pool_ignores_pool_size :
    ({ defaultQueue with pool_size := 7 } : PGMQueue).mkPool = defaultQueue.mkPool ∧
    ({ defaultQueue with pool_size := 7 } : PGMQueue).pool_size ≠
      defaultQueue.pool_size := by
  exact ⟨rfl, by decide⟩

/-- C7 (amended): the `pool_size` field is never forwarded to the
connection pool — the pool is built from the conninfo fields and
`kwargs` only, so it is invariant under `pool_size`; and every client
operation acquires a pooled connection at call start and releases it
at completion, including `send` with a delay, whose exception is
raised inside the `with` block. -/
theorem pool_build_and_scoped_ops (q : PGMQueue) (ps : Int) (b : Backend)
    (queue : String) (message : Payload) (d vtArg limit : Option Int) (n : Int)
    (msgId : Int) :
    ({ q with pool_size := ps } : PGMQueue).mkPool = q.mkPool ∧
    scopedTrace (q.create_queue b queue).1 ∧
    scopedTrace (q.create_partitioned_queue b queue vtArg).1 ∧
    scopedTrace (q.send b queue message d).1 ∧
    scopedTrace (q.read b queue vtArg (limit.getD n)).1 ∧
    scopedTrace (q.archive b queue msgId).1 ∧
    scopedTrace (q.delete b queue msgId).1 := by
  refine ⟨rfl, ⟨rfl, rfl⟩, ⟨rfl, rfl⟩, ?_, ?_, ⟨rfl, rfl⟩, ⟨rfl, rfl⟩⟩
  · cases d <;> exact ⟨rfl, rfl⟩
  · rw [scopedTrace, read_trace_eq]
    exact ⟨rfl, rfl⟩

/-- C8: `read` with an explicit visibility timeout of `0` behaves
exactly as if no timeout had been passed, because `vt or self.vt`
treats `0` as falsy: the issued statement and the outcome coincide
with the no-argument call, and the default client's fallback timeout
is 30 seconds. -/
theorem read_vt_zero_uses_default (q : PGMQueue) (b : Backend) (queue : String)
    (limit : Int) :
    q.read b queue (some 0) limit = q.read b queue none limit ∧
    vtOrDefault q (some 0) = q.vt ∧
    defaultQueue.vt = 30 ∧
    readCall defaultQueue queue (some 0) limit =
      ⟨"select * from pgmq_read(%s, %s, %s);", [.vstr queue, .vint 30, .vint limit]⟩ := by
  exact ⟨rfl, rfl, rfl, rfl⟩

/-- C9 counterexample: the empty document list also loads successfully
(the loop body never evaluates `i % deca`), refuting "loading succeeds
only for lists of 10 or more documents". -/
theorem load_empty_list_succeeds :
    loadDocs ([] : List Doc) = ([], none) ∧ ([] : List Doc).length < 10 := by
  exact ⟨rfl, by decide⟩

/-- For a nonzero logging interval the COPY loop writes every row and
raises nothing. -/
theorem loadLoop_ok (deca : Nat) (hd : deca ≠ 0) (docs : List Doc) (i : Nat) :
    loadLoop deca i docs = (docs, none) := by
  induction docs generalizing i with
  | nil => rfl
  | cons row rest ih =>
      simp [loadLoop, pymod, hd, ih (i + 1)]

/-- C9 (amended): for every non-empty document list with fewer than 10
entries, `load_documents` (via `_load_docs`) raises `ZeroDivisionError`
before writing any row, because the progress interval
`len(documents) // 10` is `0` and is used as a modulus on the first
iteration; loading succeeds, writing every row, exactly for the empty
list and for lists of 10 or more documents. -/
theorem load_docs_zero_division (r : TemboRAG) (conn : Option String)
    (hconn : truthy (strOr conn r.connection_string) = true) (docs : List Doc) :
    (docs ≠ [] → docs.length < 10 →
      r.load_documents docs conn = ([], some .zeroDivisionError)) ∧
    (10 ≤ docs.length → r.load_documents docs conn = (docs, none)) ∧
    r.load_documents [] conn = ([], none) := by
  refine ⟨?_, ?_, ?_⟩
  · intro hne hlt
    have hdeca : docs.length / 10 = 0 := Nat.div_eq_of_lt hlt
    match docs, hne with
    | row :: rest, _ =>
        simp only [TemboRAG.load_documents, hconn, if_true, loadDocs, hdeca, loadLoop]
        rfl
  · intro hge
    have hdeca : docs.length / 10 ≠ 0 := by
      have : 1 ≤ docs.length / 10 := (Nat.le_div_iff_mul_le (by norm_num)).2 (by omega)
      omega
    simp only [TemboRAG.load_documents, hconn, if_true, loadDocs]
    exact loadLoop_ok _ hdeca docs 0
  · simp only [TemboRAG.load_documents, hconn, if_true]
    rfl

/-- C9 witness: a three-row load under a valid connection string
raises `ZeroDivisionError` with nothing written, while a ten-row load
writes all ten rows. -/
theorem load_docs_zero_division_witness :
    ({ project_name := "p", connection_string := some "pg" } : TemboRAG).load_documents
        [("a", "1", "m", "c"), ("b", "2", "m", "c"), ("c", "3", "m", "c")] none =
      ([], some .zeroDivisionError) ∧
    ({ project_name := "p", connection_string := some "pg" } : TemboRAG).load_documents
        (List.replicate 10 ("a", "1", "m", "c")) none =
      (List.replicate 10 ("a", "1", "m", "c"), none) := by
  constructor
  · exact (load_docs_zero_division { project_name := "p", connection_string := some "pg" }
      none rfl _).1 (by decide) (by decide)
  · exact (load_docs_zero_division { project_name := "p", connection_string := some "pg" }
      none rfl _).2.1 (by decide)

/-- Counts how many of the four optional arguments were supplied. -/
def suppliedCount (prompt_template : Option String) (num_context : Option Int)
    (force_trim : Option Bool) (api_key : Option String) : Nat :=
  (if prompt_template.isSome then 1 else 0) + (if api_key.isSome then 1 else 0)
    + (if num_context.isSome then 1 else 0) + (if force_trim.isSome then 1 else 0)

/-- Appends a clause when the controlling option is present. -/
def clauseIf {α : Type} (o : Option α) (clause : String) : String :=
  match o with
  | some _ => clause
  | none => ""

/-- C10: `_prepare_query_params` returns a bind tuple of length 3 plus
the number of supplied optional arguments, always beginning with
`(project_name, query, chat_model)`, and the optional clauses are
appended to the query string in the fixed order `task`, `api_key`,
`num_context`, `force_trim`. -/
theorem prepare_query_params_shape (r : TemboRAG) (query : String)
    (chat_model : Option String) (prompt_template : Option String)
    (num_context : Option Int) (force_trim : Option Bool) (api_key : Option String) :
    (r.prepare_query_params query chat_model prompt_template num_context
        force_trim api_key).2.length =
      3 + suppliedCount prompt_template num_context force_trim api_key ∧
    (r.prepare_query_params query chat_model prompt_template num_context
        force_trim api_key).2.take 3 =
      [.pstr r.project_name, .pstr query, optStrParam chat_model] ∧
    (r.prepare_query_params query chat_model prompt_template num_context
        force_trim api_key).1 =
      "SELECT vectorize.rag(agent_name => %s,query => %s,chat_model => %s"
        ++ clauseIf prompt_template ",task => %s"
        ++ clauseIf api_key ",api_key => %s"
        ++ clauseIf num_context ",num_context => %s"
        ++ clauseIf force_trim ",force_trim => %s"
        ++ ");" := by
  cases prompt_template <;> cases api_key <;> cases num_context <;> cases force_trim <;>
    refine ⟨rfl, rfl, ?_⟩ <;> simp [TemboRAG.prepare_query_params, clauseIf]

end Tembo
